import Mathlib

/-!
Verification of the generic client-side DataTable engine of this repository: the `Table`
component (src/unnamed/part_003), a thin composition over the @tanstack/react-table v8
row-model pipeline, together with the external page-index context it consumes.

The pure functions of the source (`fuzzyFilter`, the summary text, the pagination guards)
are embedded directly; the row models and pagination API the source wires up at part_003
lines 64-92 are library calls, embedded here with the semantics of @tanstack/react-table v8
as configured by those lines (globalFilterFn := fuzzyFilter, autoResetPageIndex := false,
no `pageCount` option). JavaScript machine numbers are modelled as `Int`/`Nat` (all the
quantities involved are small integers) and JS strings as `String` over ASCII data.
-/

/-- A JavaScript-like cell value as produced by the row accessors of this app:
strings, (integer) numbers, booleans, and null/undefined (collapsed into one
constructor: both are falsy and neither is produced by the app's accessors). -/
inductive CellValue where
  | str : String → CellValue
  | num : Int → CellValue
  | boolean : Bool → CellValue
  | null : CellValue
  deriving DecidableEq

/-- JavaScript truthiness of a cell value: `""`, `0`, `false` and `null`/`undefined`
are falsy, everything else is truthy. -/
def CellValue.truthy : CellValue → Bool
  | .str s => s != ""
  | .num n => n != 0
  | .boolean b => b
  | .null => false

/-- JavaScript `.toString()` on a cell value (integer numbers print as in JS). -/
def CellValue.jsToString : CellValue → String
  | .str s => s
  | .num n => toString n
  | .boolean b => if b then "true" else "false"
  | .null => "null"

/-- JavaScript `String.prototype.toLowerCase` restricted to ASCII data
(`Char.toLower` agrees with JS on the ASCII range). -/
def jsToLowerCase (s : String) : String := String.mk (s.data.map Char.toLower)

/-- Containment of `needle` in a character list: some suffix starts with `needle`. -/
def charsContain (needle : List Char) : List Char → Bool
  | [] => needle.isEmpty
  | c :: rest => needle.isPrefixOf (c :: rest) || charsContain needle rest

/-- JavaScript `String.prototype.includes`: substring containment. -/
def jsIncludes (hay needle : String) : Bool := charsContain needle.toList hay.toList

/-- Embeds `fuzzyFilter` (part_003 lines 39-42):
`itemRank ? itemRank.toString().toLowerCase().includes(value.toLowerCase()) : false`,
where `itemRank = row.getValue(columnId)`. -/
def fuzzyFilter (itemRank : CellValue) (value : String) : Bool :=
  if itemRank.truthy then
    jsIncludes (jsToLowerCase itemRank.jsToString) (jsToLowerCase value)
  else false

/-- A row: a finite map from column ids (accessor keys) to cell values. -/
abbrev Row := List (String × CellValue)

/-- `row.getValue(columnId)`: the accessor lookup; a missing field is
`undefined` (modelled by `CellValue.null`, also falsy). -/
def getValue (row : Row) (columnId : String) : CellValue :=
  (row.lookup columnId).getD CellValue.null

/-- A row passes the global filter when the filter fn accepts it on some
globally-filterable column (library semantics of v8 global filtering with
`globalFilterFn := fuzzyFilter`, part_003 line 86). `columns` is the list of
globally-filterable column ids. -/
def rowPassesGlobalFilter (columns : List String) (globalFilter : String) (row : Row) : Bool :=
  columns.any (fun c => fuzzyFilter (getValue row c) globalFilter)

/-- Embeds `getFilteredRowModel()` as configured at part_003 line 89: the library
returns the rows unchanged when no column filters are set and the global filter is
falsy (in particular the empty string); otherwise it keeps the rows passing the
global filter. -/
def getFilteredRowModel (columns : List String) (globalFilter : String) (rows : List Row) :
    List Row :=
  if globalFilter = "" then rows else rows.filter (rowPassesGlobalFilter columns globalFilter)

/-- Rank separating the constructors of `CellValue` for cross-type comparisons. -/
def cellRank : CellValue → Nat
  | .null => 0
  | .boolean _ => 1
  | .num _ => 2
  | .str _ => 3

/-- The `≤` comparison induced by the library's basic sorting comparator
(`a === b ? 0 : a > b ? 1 : -1`) on same-type values: numeric order on numbers,
lexicographic order on strings, `false < true` on booleans. Across different
value types the JS comparator is not consistent (the app's columns are
homogeneous); a fixed constructor rank makes the model total there. -/
def cellLe (a b : CellValue) : Bool :=
  match a, b with
  | .num x, .num y => decide (x ≤ y)
  | .str x, .str y => decide (x ≤ y)
  | .boolean x, .boolean y => !x || y
  | .null, .null => true
  | a, b => decide (cellRank a ≤ cellRank b)

/-- Row comparison under the active sort entry `(columnId, desc)`: the library
negates the comparator for a descending column. -/
def rowLeB (columnId : String) (desc : Bool) (a b : Row) : Bool :=
  match desc with
  | true => cellLe (getValue b columnId) (getValue a columnId)
  | false => cellLe (getValue a columnId) (getValue b columnId)

/-- `rowLeB` as a decidable relation. -/
def rowLe (columnId : String) (desc : Bool) (a b : Row) : Prop :=
  rowLeB columnId desc a b = true

instance (columnId : String) (desc : Bool) : DecidableRel (rowLe columnId desc) :=
  fun a b => instDecidableEqBool (rowLeB columnId desc a b) true

/-- Embeds `getSortedRowModel()` (part_003 line 88): a stable sort of the filtered
rows by the active sort entry — ES2019 `Array.prototype.sort` is stable — and the
identity when no sort is active. `List.insertionSort` is a stable sort, hence
computes the same function. The sorting state is at most one `(columnId, desc)`
entry (single-column sort, spec §3). -/
def getSortedRowModel (sorting : Option (String × Bool)) (rows : List Row) : List Row :=
  match sorting with
  | none => rows
  | some (columnId, desc) => List.insertionSort (rowLe columnId desc) rows

/-- Embeds `getPaginationRowModel()` (part_003 line 90): an empty row model is
returned unchanged, otherwise `rows.slice(pageIndex * pageSize, pageIndex * pageSize + pageSize)`. -/
def getPaginationRowModel (pageIndex pageSize : Nat) (rows : List Row) : List Row :=
  match rows with
  | [] => []
  | _ => (rows.drop (pageIndex * pageSize)).take pageSize

/-- Embeds `table.getPageCount()` (part_003 line 95):
`options.pageCount ?? Math.ceil(rowCount / pageSize)`; the source passes no
`pageCount` option, so the derived ceiling is used (for `pageSize > 0` this Nat
expression is exactly `Math.ceil`). -/
def getPageCount (rowCount pageSize : Nat) : Nat := (rowCount + pageSize - 1) / pageSize

/-- Follows the spec's words (claim C4): `pageCount = max(1, ceil(filteredRowCount
/ pageSize))`, stated for comparison with the source-derived `getPageCount`. -/
def pageCountSpec (rowCount pageSize : Nat) : Nat := max 1 ((rowCount + pageSize - 1) / pageSize)

/-- Follows the spec's words (claim C3): a row matches when some filterable
column's stringified value contains the filter text as a case-insensitive
substring — for comparison with the source's `fuzzyFilter`, which additionally
requires the cell value to be truthy. -/
def matchesGlobalFilterSpec (row : Row) (text : String) (columns : List String) : Bool :=
  columns.any (fun c =>
    jsIncludes (jsToLowerCase (getValue row c).jsToString) (jsToLowerCase text))

/-- `Number.MAX_SAFE_INTEGER`. -/
def MAX_SAFE_INTEGER : Int := 9007199254740991

/-- Embeds `table.setPageIndex`'s clamp:
`pageIndex = Math.max(0, Math.min(requested, maxPageIndex))` where `maxPageIndex`
is `Number.MAX_SAFE_INTEGER` when the `pageCount` option is undefined or `-1`,
else `options.pageCount - 1`. -/
def setPageIndexImpl (optionsPageCount : Option Int) (requested : Int) : Int :=
  let maxPageIndex : Int :=
    match optionsPageCount with
    | none => MAX_SAFE_INTEGER
    | some pc => if pc = -1 then MAX_SAFE_INTEGER else pc - 1
  max 0 (min requested maxPageIndex)

/-- part_003 passes no `pageCount` option to `useReactTable` (lines 64-92). -/
def tableOptionsPageCount : Option Int := none

/-- `table.previousPage()`: `setPageIndex(old => old - 1)`. -/
def previousPageIdx (old : Int) : Int := setPageIndexImpl tableOptionsPageCount (old - 1)

/-- `table.nextPage()`: `setPageIndex(old => old + 1)`. -/
def nextPageIdx (old : Int) : Int := setPageIndexImpl tableOptionsPageCount (old + 1)

/-- `table.getCanPreviousPage()`: `pageIndex > 0`. -/
def getCanPreviousPage (pageIndex : Int) : Bool := decide (0 < pageIndex)

/-- `table.getCanNextPage()`: false when the derived page count is 0, else
`pageIndex < pageCount - 1` (the `pageCount == -1` branch cannot arise here). -/
def getCanNextPage (pageIndex : Int) (pageCount : Nat) : Bool :=
  if pageCount = 0 then false else decide (pageIndex < (pageCount : Int) - 1)

/-- `showPagination` (part_003 line 97): `totalPages > 1`. -/
def showPagination (totalPages : Nat) : Bool := totalPages > 1

/-- Embeds the results-summary line (part_003 lines 156-164): `"Showing "` then,
when pagination is shown, `"{page*size+1} to {min((page+1)*size, filteredCount)}"`,
else just the filtered count, then `" of {filteredCount} results"`. -/
def summaryText (currentPage pageSize totalPages filteredCount : Nat) : String :=
  "Showing " ++
    (if showPagination totalPages then
      toString (currentPage * pageSize + 1) ++ " to " ++
        toString (min ((currentPage + 1) * pageSize) filteredCount)
    else toString filteredCount) ++
    " of " ++ toString filteredCount ++ " results"

/-- `autoResetPageIndex: false` (part_003 line 91). -/
def autoResetPageIndexOpt : Bool := false

/-- Embeds the library's `_autoResetPageIndex` hook, queued when the filtered or
sorted row model recomputes: it resets the page index to 0 only when the
`autoResetPageIndex` option allows it. -/
def maybeAutoResetPageIndex (pageIndex : Nat) : Nat :=
  if autoResetPageIndexOpt then 0 else pageIndex

/-- The view-relevant mutable state of one mounted `Table`. -/
structure TableState where
  globalFilter : String
  pageIndex : Nat
  deriving DecidableEq

/-- Effect of `setGlobalFilter(text)` on the table state
(`onGlobalFilterChange: setGlobalFilter`, part_003 line 79), followed by the
auto-reset hook that runs when the filtered model recomputes. -/
def applySetGlobalFilter (s : TableState) (text : String) : TableState :=
  { globalFilter := text, pageIndex := maybeAutoResetPageIndex s.pageIndex }

/-- Modelled from the spec: the `PaginationContext` module (the frontend
`contexts/PaginationContext` imported at part_003 line 15) is not under `src/`.
Spec §9 describes it as module-level/global page-position state; its whole
interface at the call site (part_003 line 58) is
`{ projectPageIndex, setProjectPageIndex }` — a single counter, with no
list-identity parameter in the hook, and none in the Table props either. -/
structure PaginationStore where
  projectPageIndex : Nat
  deriving DecidableEq

/-- The store before any table interaction (default page index 0). -/
def initialPaginationStore : PaginationStore := { projectPageIndex := 0 }

/-- `setProjectPageIndex(i)` — the only write, performed by `onPaginationChange`
(part_003 lines 80-85). -/
def setProjectPageIndex (i : Nat) (s : PaginationStore) : PaginationStore :=
  { projectPageIndex := i }

/-- The `pageIndex` a freshly-constructed `Table` instance observes (part_003
lines 58 and 74): it reads the shared context value; the logical list identity
the instance is rendered for does not enter the lookup. -/
def tablePageIndexOnMount (s : PaginationStore) (listIdentity : String) : Nat :=
  s.projectPageIndex

/-- Static per-instance configuration plus current state of a table. -/
structure TableConfig where
  columns : List String
  globalFilter : String
  sorting : Option (String × Bool)
  pageIndex : Nat
  pageSize : Nat

/-- Embeds the row-model chain configured at part_003 lines 87-90:
core → filtered → sorted → paginated; `table.getRowModel()` (line 140) returns
the final paginated model. -/
def tableGetRowModel (data : List Row) (cfg : TableConfig) : List Row :=
  getPaginationRowModel cfg.pageIndex cfg.pageSize
    (getSortedRowModel cfg.sorting
      (getFilteredRowModel cfg.columns cfg.globalFilter data))

/-- 25 sample rows (spec §8 scenario): row 0 is named "Alpha", row `i > 0` is
named "item`i`". -/
def data25 : List Row :=
  (List.range 25).map (fun i =>
    [("id", CellValue.num (Int.ofNat i)),
     ("name", CellValue.str (if i = 0 then "Alpha" else "item" ++ toString i))])

/-! ### Order-theoretic facts about the sort comparator -/

theorem cellLe_refl (v : CellValue) : cellLe v v = true := by
  cases v <;> simp [cellLe]

theorem cellLe_total (a b : CellValue) : cellLe a b = true ∨ cellLe b a = true := by
  cases a <;> cases b <;> simp [cellLe, cellRank]
  · exact le_total ..
  · exact Int.le_total ..
  · rename_i x y
    cases x <;> cases y <;> simp

theorem cellLe_trans (a b c : CellValue) (hab : cellLe a b = true) (hbc : cellLe b c = true) :
    cellLe a c = true := by
  cases a <;> cases b <;> cases c <;> simp_all [cellLe, cellRank]
  · exact le_trans hab hbc
  · exact Int.le_trans hab hbc
  · rename_i x y z
    cases x <;> cases y <;> cases z <;> simp_all

theorem rowLe_of_getValue_eq (columnId : String) (desc : Bool) {a b : Row}
    (h : getValue a columnId = getValue b columnId) : rowLe columnId desc a b := by
  unfold rowLe rowLeB
  cases desc <;> simp only [h] <;> exact cellLe_refl _

instance (columnId : String) (desc : Bool) : IsTrans Row (rowLe columnId desc) := by
  constructor
  intro a b c hab hbc
  unfold rowLe rowLeB at *
  cases desc
  · exact cellLe_trans _ _ _ hab hbc
  · exact cellLe_trans _ _ _ hbc hab

instance (columnId : String) (desc : Bool) : IsTotal Row (rowLe columnId desc) := by
  constructor
  intro a b
  unfold rowLe rowLeB
  cases desc
  · exact cellLe_total ..
  · exact (cellLe_total ..).symm

/-- Inserting `x` with `orderedInsert` commutes with `filter p` when all elements
satisfying `p` are mutually `le`-comparable in insertion order: the inserted
element lands before every later `p`-element and after no earlier one. -/
theorem filter_orderedInsert {α : Type} (le : α → α → Prop) [DecidableRel le]
    (p : α → Bool) (x : α) (hx : ∀ y, p x = true → p y = true → le x y) :
    ∀ l : List α, (List.orderedInsert le x l).filter p =
      if p x then x :: l.filter p else l.filter p := by
  intro l
  induction l with
  | nil => simp [List.filter_cons]
  | cons y ys ih =>
    by_cases hle : le x y
    · simp only [List.orderedInsert, if_pos hle, List.filter_cons]
    · simp only [List.orderedInsert, if_neg hle, List.filter_cons, ih]
      by_cases hpx : p x <;> by_cases hpy : p y <;> simp [hpx, hpy]
      exact absurd (hx y hpx hpy) hle

/-- Stability of `insertionSort`, phrased through `filter`: the subsequence of
elements satisfying `p` (a class of mutually `le`-related elements, e.g. the rows
with one given sort key) is unchanged by sorting. -/
theorem insertionSort_filter_eq {α : Type} (le : α → α → Prop) [DecidableRel le]
    (p : α → Bool) (hp : ∀ x y, p x = true → p y = true → le x y) :
    ∀ l : List α, (List.insertionSort le l).filter p = l.filter p := by
  intro l
  induction l with
  | nil => rfl
  | cons x xs ih =>
    simp only [List.insertionSort]
    rw [filter_orderedInsert le p x (fun y => hp x y)]
    by_cases hpx : p x <;> simp [hpx, ih, List.filter_cons]

/-- Sorting is idempotent: the sorted model of a sorted model is unchanged. -/
theorem getSortedRowModel_idem (s : Option (String × Bool)) (rows : List Row) :
    getSortedRowModel s (getSortedRowModel s rows) = getSortedRowModel s rows := by
  cases s with
  | none => rfl
  | some cd =>
    obtain ⟨c, d⟩ := cd
    simp only [getSortedRowModel]
    exact List.Sorted.insertionSort_eq (List.sorted_insertionSort _ _)

/-- `fuzzyFilter` written as a conjunction: truthy and containing. -/
theorem fuzzyFilter_eq_and (v : CellValue) (t : String) :
    fuzzyFilter v t =
      (v.truthy && jsIncludes (jsToLowerCase v.jsToString) (jsToLowerCase t)) := by
  unfold fuzzyFilter
  cases hv : v.truthy <;> simp [hv]

/-- A single-field row holding the number `n` (spec §8 P5 instance). -/
def rowN (n : Int) : Row := [("n", CellValue.num n)]

/-! ### Claims -/

/-- C1, counterexample: after the "projects" table stores pageIndex = 2, a
freshly constructed table instance for the different logical list "tasks-7"
also observes pageIndex = 2, not 0 — the context holds one shared counter. -/
theorem c1_shared_counter_counterexample :
    tablePageIndexOnMount (setProjectPageIndex 2 initialPaginationStore) "tasks-7" = 2 ∧
    tablePageIndexOnMount (setProjectPageIndex 2 initialPaginationStore) "tasks-7" ≠ 0 := by
  exact ⟨rfl, by decide⟩

/-- C1 (amended): the page index is persisted in the external store, so a fresh
table instance for the same logical list observes the stored value across
remounts; but the store is a single shared counter — a table instance
constructed for any other logical list observes that same value, not an
independent counter of its own. -/
theorem c1_page_index_persistence (s : PaginationStore) (i : Nat) (id1 id2 : String) :
    tablePageIndexOnMount (setProjectPageIndex i s) id1 = i ∧
    tablePageIndexOnMount (setProjectPageIndex i s) id1 =
      tablePageIndexOnMount (setProjectPageIndex i s) id2 :=
  ⟨rfl, rfl⟩

/-- C2, counterexample: 25 rows, page index persisted at 1 with pageSize 10;
narrowing the filter to "alpha" leaves exactly one matching row. The page index
is not clamped (it stays 1), `pageIndex * pageSize = 10` is outside `[0, 1)`,
and the presented page slice is empty while page 0 still holds the row. -/
theorem c2_no_clamp_counterexample :
    (applySetGlobalFilter { globalFilter := "", pageIndex := 1 } "alpha").pageIndex = 1 ∧
    (getFilteredRowModel ["id", "name"] "alpha" data25).length = 1 ∧
    ¬ (1 * 10 < (getFilteredRowModel ["id", "name"] "alpha" data25).length) ∧
    getPaginationRowModel 1 10 (getFilteredRowModel ["id", "name"] "alpha" data25) = [] ∧
    getPaginationRowModel 0 10 (getFilteredRowModel ["id", "name"] "alpha" data25) ≠ [] := by
  refine ⟨rfl, ?_, ?_, ?_, ?_⟩ <;> decide

/-- C2 (amended): the engine does not clamp. A filter change leaves the page
index exactly as it was (auto-reset disabled), and whenever the persisted
`pageIndex * pageSize` reaches or exceeds the shrunken filtered row count, the
presented page slice is empty even though earlier pages still hold data. -/
theorem c2_stale_page_not_clamped (s : TableState) (text : String) (rows : List Row)
    (pageSize : Nat)
    (h : rows.length ≤ (applySetGlobalFilter s text).pageIndex * pageSize) :
    (applySetGlobalFilter s text).pageIndex = s.pageIndex ∧
    getPaginationRowModel (applySetGlobalFilter s text).pageIndex pageSize rows = [] := by
  refine ⟨rfl, ?_⟩
  cases rows with
  | nil => rfl
  | cons r rs =>
    have hd : List.drop ((applySetGlobalFilter s text).pageIndex * pageSize) (r :: rs) = [] :=
      List.drop_eq_nil_of_le h
    show List.take pageSize
        (List.drop ((applySetGlobalFilter s text).pageIndex * pageSize) (r :: rs)) = []
    rw [hd]
    exact List.take_nil

/-- C2 witness: the amended statement at the concrete shrink scenario
(pageIndex 1, pageSize 10, a single surviving row). -/
theorem c2_stale_page_not_clamped_witness :
    (applySetGlobalFilter { globalFilter := "", pageIndex := 1 } "alpha").pageIndex = 1 ∧
    getPaginationRowModel
        (applySetGlobalFilter { globalFilter := "", pageIndex := 1 } "alpha").pageIndex 10
        [[("name", CellValue.str "Alpha")]] = [] :=
  c2_stale_page_not_clamped { globalFilter := "", pageIndex := 1 } "alpha"
    [[("name", CellValue.str "Alpha")]] 10 (by decide)

/-- C3, counterexample: a row whose only filterable field holds the number 0,
searched with "0". The stringified value "0" contains the needle, so the
claim's predicate matches the row, but `fuzzyFilter` rejects falsy values and
the filtered view drops it. -/
theorem c3_falsy_cell_counterexample :
    matchesGlobalFilterSpec [("count", CellValue.num 0)] "0" ["count"] = true ∧
    getFilteredRowModel ["count"] "0" [[("count", CellValue.num 0)]] = [] := by
  exact ⟨by decide, by decide⟩

/-- C3 (amended): the empty filter text keeps every row (the library bypasses
filtering), and a non-empty text keeps a row iff some filterable column's value
is truthy AND its stringified value contains the text as a case-insensitive
substring; falsy cells (0, false, "", null) never match through that column. -/
theorem c3_filter_semantics (columns : List String) (text : String) (rows : List Row) :
    getFilteredRowModel columns "" rows = rows ∧
    getFilteredRowModel columns text rows = rows.filter (fun r =>
      decide (text = "") || columns.any (fun c =>
        (getValue r c).truthy &&
          jsIncludes (jsToLowerCase (getValue r c).jsToString) (jsToLowerCase text))) := by
  refine ⟨rfl, ?_⟩
  by_cases h : text = ""
  · subst h
    simp [getFilteredRowModel]
  · have hd : decide (text = "") = false := decide_eq_false h
    simp only [getFilteredRowModel, if_neg h, hd, Bool.false_or]
    congr 1
    funext r
    simp [rowPassesGlobalFilter, fuzzyFilter_eq_and]

/-- C4, counterexample: with 0 filtered rows and pageSize 10 the exposed page
count is ceil(0/10) = 0, not the claimed max(1, ceil(0/10)) = 1. -/
theorem c4_empty_page_count_counterexample :
    getPageCount 0 10 = 0 ∧ pageCountSpec 0 10 = 1 ∧
    getPageCount 0 10 ≠ pageCountSpec 0 10 := by
  exact ⟨rfl, rfl, by decide⟩

/-- C4 (amended): the exposed page count is exactly ceil(filteredRowCount /
pageSize) with no minimum — it is 0 when the filtered row count is 0, and
agrees with max(1, ceil) whenever the count is positive; the rendered page
slice length is min(pageSize, filteredRowCount - pageIndex*pageSize) when that
value is non-negative, else 0. -/
theorem c4_page_count_and_slice_length (rows : List Row) (pageIndex pageSize : Nat)
    (hps : 0 < pageSize) :
    (0 < rows.length →
      getPageCount rows.length pageSize = pageCountSpec rows.length pageSize) ∧
    getPageCount 0 pageSize = 0 ∧
    (getPaginationRowModel pageIndex pageSize rows).length =
      (if pageIndex * pageSize ≤ rows.length
        then min pageSize (rows.length - pageIndex * pageSize) else 0) := by
  refine ⟨?_, ?_, ?_⟩
  · intro hlen
    unfold getPageCount pageCountSpec
    have h1 : 1 ≤ (rows.length + pageSize - 1) / pageSize := by
      rw [Nat.le_div_iff_mul_le hps]
      omega
    exact (max_eq_right h1).symm
  · unfold getPageCount
    exact Nat.div_eq_of_lt (by omega)
  · cases rows with
    | nil => simp [getPaginationRowModel]
    | cons r rs =>
      show (List.take pageSize (List.drop (pageIndex * pageSize) (r :: rs))).length = _
      rw [List.length_take, List.length_drop]
      by_cases hle : pageIndex * pageSize ≤ (r :: rs).length
      · rw [if_pos hle]
      · rw [if_neg hle]
        have h0 : (r :: rs).length - pageIndex * pageSize = 0 := by omega
        rw [h0, Nat.min_zero]

/-- C4 witness: the amended statement at 25 rows, pageSize 10, pageIndex 2. -/
theorem c4_page_count_and_slice_length_witness :
    getPageCount data25.length 10 = pageCountSpec data25.length 10 ∧
    (getPaginationRowModel 2 10 data25).length =
      (if 2 * 10 ≤ data25.length then min 10 (data25.length - 2 * 10) else 0) :=
  ⟨(c4_page_count_and_slice_length data25 2 10 (by decide)).1 (by decide),
   (c4_page_count_and_slice_length data25 2 10 (by decide)).2.2⟩

/-- C5: the rendered row model is always the three-stage pipeline
filter → stable sort → page slice, in this exact order, applied to the full row
set; at the spec's P5 instance ([3,1,2], sort by n ascending, pageSize 2) page 0
is [1,2], page 1 is [3] and the page count is 2, while paginating before
sorting would yield a different page 1 — order is observable. -/
theorem c5_pipeline_order :
    (∀ (data : List Row) (cfg : TableConfig),
      tableGetRowModel data cfg =
        getPaginationRowModel cfg.pageIndex cfg.pageSize
          (getSortedRowModel cfg.sorting
            (getFilteredRowModel cfg.columns cfg.globalFilter data))) ∧
    tableGetRowModel [rowN 3, rowN 1, rowN 2]
        { columns := ["n"], globalFilter := "", sorting := some ("n", false),
          pageIndex := 0, pageSize := 2 } = [rowN 1, rowN 2] ∧
    tableGetRowModel [rowN 3, rowN 1, rowN 2]
        { columns := ["n"], globalFilter := "", sorting := some ("n", false),
          pageIndex := 1, pageSize := 2 } = [rowN 3] ∧
    getPageCount (getFilteredRowModel ["n"] "" [rowN 3, rowN 1, rowN 2]).length 2 = 2 ∧
    getSortedRowModel (some ("n", false))
        (getPaginationRowModel 1 2 (getFilteredRowModel ["n"] "" [rowN 3, rowN 1, rowN 2])) ≠
      tableGetRowModel [rowN 3, rowN 1, rowN 2]
        { columns := ["n"], globalFilter := "", sorting := some ("n", false),
          pageIndex := 1, pageSize := 2 } := by
  refine ⟨fun data cfg => rfl, ?_, ?_, ?_, ?_⟩ <;> decide

/-- C6: sorting is stable — for any rows, column, direction and key value, the
rows carrying that key keep their relative order from the pre-sort sequence
(their subsequence is unchanged by the sort), and sorting twice with the same
column/direction yields exactly the single sort's result. -/
theorem c6_sort_stable :
    (∀ (rows : List Row) (columnId : String) (desc : Bool) (v : CellValue),
      (getSortedRowModel (some (columnId, desc)) rows).filter
          (fun r => getValue r columnId == v) =
        rows.filter (fun r => getValue r columnId == v)) ∧
    (∀ (s : Option (String × Bool)) (rows : List Row),
      getSortedRowModel s (getSortedRowModel s rows) = getSortedRowModel s rows) := by
  constructor
  · intro rows columnId desc v
    apply insertionSort_filter_eq
    intro x y hx hy
    simp only [beq_iff_eq] at hx hy
    exact rowLe_of_getValue_eq columnId desc (hx.trans hy.symm)
  · exact getSortedRowModel_idem

/-- C7, counterexample: with 3 filtered rows and pageSize 2 the page count is 2;
nextPage() at the last page (index 1 = pageCount - 1) does not leave the state
unchanged — the clamp uses only the `pageCount` option, which this table never
sets, so the stored index becomes 2, one past the last page. -/
theorem c7_next_page_overflow_counterexample :
    getPageCount 3 2 = 2 ∧ nextPageIdx (2 - 1) = 2 ∧ ((2 : Int)) ≠ 2 - 1 := by
  refine ⟨rfl, ?_, by decide⟩
  decide

/-- C7 (amended): previousPage() at index 0 is a no-op (requests are clamped
below at 0) and the controls reflect canPreviousPage = index > 0 and
canNextPage = index < pageCount - 1 (false at the last page, disabling the next
button); but nextPage() is not clamped against the derived page count — at any
index below MAX_SAFE_INTEGER it increments, so at the last page it moves the
stored index one past the end, and only the disabled button prevents that. -/
theorem c7_navigation_guards (old : Int) (pageCount : Nat) (h0 : 0 ≤ old)
    (hmax : old < MAX_SAFE_INTEGER) (hpc : 0 < pageCount) :
    previousPageIdx 0 = 0 ∧
    getCanPreviousPage 0 = false ∧
    getCanNextPage ((pageCount : Int) - 1) pageCount = false ∧
    nextPageIdx old = old + 1 ∧
    getCanPreviousPage old = decide (0 < old) ∧
    getCanNextPage old pageCount = decide (old < (pageCount : Int) - 1) := by
  have hpc0 : pageCount ≠ 0 := Nat.pos_iff_ne_zero.mp hpc
  refine ⟨by decide, by decide, ?_, ?_, rfl, ?_⟩
  · unfold getCanNextPage
    rw [if_neg hpc0]
    simp
  · unfold nextPageIdx setPageIndexImpl tableOptionsPageCount
    simp only [MAX_SAFE_INTEGER] at hmax ⊢
    omega
  · unfold getCanNextPage
    rw [if_neg hpc0]

/-- C7 witness: the amended statement at index 1 with page count 2. -/
theorem c7_navigation_guards_witness :
    previousPageIdx 0 = 0 ∧
    getCanPreviousPage 0 = false ∧
    getCanNextPage (((2 : Nat) : Int) - 1) 2 = false ∧
    nextPageIdx 1 = 1 + 1 ∧
    getCanPreviousPage 1 = decide ((0 : Int) < 1) ∧
    getCanNextPage 1 2 = decide ((1 : Int) < ((2 : Nat) : Int) - 1) :=
  c7_navigation_guards 1 2 (by decide) (by decide) (by decide)

/-- C8: setGlobalFilter never touches the page index — auto-reset on filter
change is disabled (`autoResetPageIndex: false`), so after any filter change
the page index equals its value before the change while the filter text is
updated. -/
theorem c8_filter_change_preserves_page_index (s : TableState) (text : String) :
    (applySetGlobalFilter s text).pageIndex = s.pageIndex ∧
    (applySetGlobalFilter s text).globalFilter = text :=
  ⟨rfl, rfl⟩

/-- C9: with 25 rows, pageSize 10 and no filter or sort active, the filtered
count is 25, the page count is 3, and the summary reads "Showing 1 to 10 of 25
results" on page 0 and "Showing 21 to 25 of 25 results" on page 2 (the last). -/
theorem c9_summary_scenario :
    (getSortedRowModel none (getFilteredRowModel ["id", "name"] "" data25)).length = 25 ∧
    getPageCount 25 10 = 3 ∧
    summaryText 0 10 (getPageCount 25 10) 25 = "Showing 1 to 10 of 25 results" ∧
    summaryText 2 10 (getPageCount 25 10) 25 = "Showing 21 to 25 of 25 results" := by
  refine ⟨?_, rfl, ?_, ?_⟩ <;> decide

/-- C10: for every falsy cell value (null/undefined, 0, false, "") the source's
`fuzzyFilter` returns false for every search text — including the empty text —
so a row can never match the global filter through that column, even when the
stringified value contains the needle. -/
theorem c10_falsy_cell_never_matches (v : CellValue) (text : String)
    (h : v.truthy = false) : fuzzyFilter v text = false := by
  simp [fuzzyFilter, h]

/-- C10 witness: a cell holding the number 0, searched with "0" — the
stringified value contains the needle, yet the filter fn returns false. -/
theorem c10_falsy_cell_never_matches_witness :
    CellValue.truthy (CellValue.num 0) = false ∧
    jsIncludes (jsToLowerCase (CellValue.num 0).jsToString) (jsToLowerCase "0") = true ∧
    fuzzyFilter (CellValue.num 0) "0" = false :=
  ⟨by decide, by decide, c10_falsy_cell_never_matches (CellValue.num 0) "0" (by decide)⟩
